import Mathlib

/-
Verification development for the XAUUSD trading bot
(src/src/trading_logic.py).

The embedding below translates the data model and the operations of the
source file into Lean:

* a pandas DataFrame produced by the fetch step is a list of OHLC bars
  together with a list of named indicator columns (each column a list of
  possibly-undefined rational samples, NaN modelled as `none`);
* `TradingBot.calculate_indicators` enriches the frame by appending the
  pandas_ta indicator columns and renaming the MACD columns;
* `TradingBot.generate_signal` inspects the last two rows and returns
  either a 2-tuple, a 3-tuple, or raises an IndexError, exactly following
  the control flow of the source;
* `run_trading_strategy` sequences fetch, enrichment and decision and
  either reports a decision, exits early on missing data, or crashes on an
  uncaught exception.

The indicator mathematics itself (RSI with Wilder smoothing, MACD from
exponential moving averages, simple moving averages) is performed by the
external pandas_ta library, whose code is not part of this repository; it
is modelled from the specification (section 4.1), which describes the
library behaviour being reproduced.  Comparisons against NaN are false in
pandas; the Option-valued comparison operators below reproduce that.
-/

namespace TradingLogic

/-- Trading action returned by the decision engine. -/
inductive Signal
  | BUY
  | SELL
  | HOLD
deriving DecidableEq, Repr

/-- One OHLC observation, a single row of the fetched price table. -/
structure Bar where
  ts : Int
  Open : ℚ
  High : ℚ
  Low : ℚ
  Close : ℚ
deriving DecidableEq, Repr, Inhabited

/-- Names of the derived indicator columns, both the raw pandas_ta names
and the names after the rename step of calculate_indicators. -/
inductive ColName
  | RSI_14
  | MACD
  | MACD_H
  | MACD_S
  | SMA_50
  | SMA_200
  | MACD_12_26_9
  | MACDH_12_26_9
  | MACDS_12_26_9
deriving DecidableEq, Repr

/-- A pandas DataFrame as used by the bot: the raw OHLC bars plus the
derived indicator columns keyed by name.  A sample that is NaN in pandas
is `none` here. -/
structure DataFrame where
  bars : List Bar
  extra : List (ColName × List (Option ℚ))
deriving DecidableEq, Repr

/-- Column lookup by name; `none` when the column is absent, which is how
the `col in latest` membership test of the source distinguishes presence. -/
def getCol (df : DataFrame) (name : ColName) : Option (List (Option ℚ)) :=
  (df.extra.find? (fun p => p.1 == name)).map Prod.snd

/-- The sample of column `name` at row index `i`; NaN (and an absent
column or row) is `none`. -/
def cellAt (df : DataFrame) (name : ColName) (i : Nat) : Option ℚ :=
  ((getCol df name).getD []).getD i none

/-- Append one derived column, the `append=True` effect of a pandas_ta
call. -/
def appendCol (df : DataFrame) (name : ColName) (vals : List (Option ℚ)) :
    DataFrame :=
  { df with extra := df.extra ++ [(name, vals)] }

/-- Rename a column, the `DataFrame.rename` step of the source. -/
def renameCol (df : DataFrame) (a b : ColName) : DataFrame :=
  { df with extra := df.extra.map (fun p => if p.1 = a then (b, p.2) else p) }

/-- The Close column of the raw bars. -/
def closesOf (df : DataFrame) : List ℚ := df.bars.map Bar.Close

/-- Modelled from the spec: close-to-close deltas used by the RSI
computation of pandas_ta, which is not part of this repository. -/
def deltas (xs : List ℚ) : List ℚ :=
  (xs.zip xs.tail).map (fun p => p.2 - p.1)

/-- Modelled from the spec: per-period gains (positive part of the delta). -/
def gains (xs : List ℚ) : List ℚ := (deltas xs).map (fun d => max d 0)

/-- Modelled from the spec: per-period losses (positive part of the
negated delta). -/
def losses (xs : List ℚ) : List ℚ := (deltas xs).map (fun d => max (-d) 0)

/-- Modelled from the spec: Wilder smoothing over a window of `p` samples,
seeded by the simple average of the first `p` samples.  The result is
aligned with input indices `p - 1` onward. -/
def wilder (p : Nat) (xs : List ℚ) : List ℚ :=
  if xs.length < p then []
  else (xs.drop p).scanl (fun a x => (a * ((p : ℚ) - 1) + x) / p)
    ((xs.take p).sum / p)

/-- Modelled from the spec: the RSI value from an average gain and an
average loss; when the average loss is zero the RSI is defined as 100. -/
def rsiVal (g l : ℚ) : ℚ :=
  if l = 0 then 100 else 100 - 100 / (1 + g / l)

/-- Modelled from the spec: the defined tail of the RSI(14) column. -/
def rsiCore (xs : List ℚ) : List ℚ :=
  (List.range (wilder 14 (losses xs)).length).map
    (fun k => rsiVal ((wilder 14 (gains xs)).getD k 0)
      ((wilder 14 (losses xs)).getD k 0))

/-- Modelled from the spec: the RSI(14) column, undefined for the first 14
positions. -/
def rsiList (xs : List ℚ) : List (Option ℚ) :=
  List.replicate (min xs.length 14) none ++ (rsiCore xs).map some

/-- Modelled from the spec: exponential moving average with smoothing
factor 2 / (n + 1), seeded by the simple average of the first n samples;
aligned with input indices n - 1 onward. -/
def emaCore (n : Nat) (xs : List ℚ) : List ℚ :=
  if xs.length < n then []
  else (xs.drop n).scanl
    (fun a x => (2 / ((n : ℚ) + 1)) * x + (1 - 2 / ((n : ℚ) + 1)) * a)
    ((xs.take n).sum / n)

/-- Modelled from the spec: the defined tail of the MACD line,
EMA(close, 12) minus EMA(close, 26). -/
def macdCore (xs : List ℚ) : List ℚ :=
  List.zipWith (fun a b => a - b) ((emaCore 12 xs).drop 14) (emaCore 26 xs)

/-- Modelled from the spec: the MACD column, undefined for the first 25
positions. -/
def macdList (xs : List ℚ) : List (Option ℚ) :=
  List.replicate (min xs.length 25) none ++ (macdCore xs).map some

/-- Modelled from the spec: the defined tail of the MACD signal line,
EMA(MACD, 9). -/
def macdsCore (xs : List ℚ) : List ℚ := emaCore 9 (macdCore xs)

/-- Modelled from the spec: the MACD signal column, undefined for the
first 33 positions. -/
def macdsList (xs : List ℚ) : List (Option ℚ) :=
  List.replicate (min xs.length 33) none ++ (macdsCore xs).map some

/-- Modelled from the spec: the defined tail of the MACD histogram, MACD
minus its signal line. -/
def macdhCore (xs : List ℚ) : List ℚ :=
  List.zipWith (fun a b => a - b) ((macdCore xs).drop 8) (macdsCore xs)

/-- Modelled from the spec: the MACD histogram column. -/
def macdhList (xs : List ℚ) : List (Option ℚ) :=
  List.replicate (min xs.length 33) none ++ (macdhCore xs).map some

/-- Modelled from the spec: the defined tail of the simple moving average
over a window of n samples. -/
def smaCore (n : Nat) (xs : List ℚ) : List ℚ :=
  (List.range (xs.length + 1 - n)).map (fun i => ((xs.drop i).take n).sum / n)

/-- Modelled from the spec: the SMA(n) column, undefined until the window
is full. -/
def smaList (n : Nat) (xs : List ℚ) : List (Option ℚ) :=
  List.replicate (min xs.length (n - 1)) none ++ (smaCore n xs).map some

/-- The enrichment step of calculate_indicators on a non-empty frame: the
pandas_ta calls append RSI_14, the three MACD columns and the two SMA
columns, then the rename gives the MACD columns their short names. -/
def enrich (df : DataFrame) : DataFrame :=
  renameCol
    (renameCol
      (renameCol
        (appendCol
          (appendCol
            (appendCol
              (appendCol
                (appendCol
                  (appendCol df ColName.RSI_14 (rsiList (closesOf df)))
                  ColName.MACD_12_26_9 (macdList (closesOf df)))
                ColName.MACDH_12_26_9 (macdhList (closesOf df)))
              ColName.MACDS_12_26_9 (macdsList (closesOf df)))
            ColName.SMA_50 (smaList 50 (closesOf df)))
          ColName.SMA_200 (smaList 200 (closesOf df)))
        ColName.MACD_12_26_9 ColName.MACD)
      ColName.MACDH_12_26_9 ColName.MACD_H)
    ColName.MACDS_12_26_9 ColName.MACD_S

/-- TradingBot.calculate_indicators: returns early when the data is None
or empty, otherwise enriches the frame in place. -/
def calculate_indicators (data : Option DataFrame) : Option DataFrame :=
  match data with
  | none => none
  | some df => if df.bars.isEmpty then some df else some (enrich df)

/-- Comparison `a > b` on possibly-NaN values; any comparison against NaN
is false in pandas. -/
def ogt (a b : Option ℚ) : Bool :=
  match a, b with
  | some x, some y => decide (y < x)
  | _, _ => false

/-- Comparison `a < b` on possibly-NaN values. -/
def olt (a b : Option ℚ) : Bool :=
  match a, b with
  | some x, some y => decide (x < y)
  | _, _ => false

/-- Comparison `a <= b` on possibly-NaN values. -/
def ole (a b : Option ℚ) : Bool :=
  match a, b with
  | some x, some y => decide (x ≤ y)
  | _, _ => false

/-- The latest Close, `latest['Close']` of the source. -/
def latestClose (df : DataFrame) : ℚ :=
  (df.bars.getD (df.bars.length - 1) default).Close

/-- The `all(col in latest for col in required_cols)` check of the
source. -/
def requiredColsPresent (df : DataFrame) : Bool :=
  (getCol df ColName.RSI_14).isSome && (getCol df ColName.MACD).isSome &&
  (getCol df ColName.MACD_S).isSome && (getCol df ColName.SMA_200).isSome

/-- The BUY guard of the source: uptrend, bullish MACD crossover at this
bar, rising RSI, RSI below 70. -/
def buyCond (df : DataFrame) : Bool :=
  ogt (some (latestClose df)) (cellAt df ColName.SMA_200 (df.bars.length - 1)) &&
  (ogt (cellAt df ColName.MACD (df.bars.length - 1))
      (cellAt df ColName.MACD_S (df.bars.length - 1)) &&
    ole (cellAt df ColName.MACD (df.bars.length - 2))
      (cellAt df ColName.MACD_S (df.bars.length - 2))) &&
  ogt (cellAt df ColName.RSI_14 (df.bars.length - 1))
    (cellAt df ColName.RSI_14 (df.bars.length - 2)) &&
  olt (cellAt df ColName.RSI_14 (df.bars.length - 1)) (some 70)

/-- The SELL guard of the source: downtrend, bearish MACD state, RSI above
50. -/
def sellCond (df : DataFrame) : Bool :=
  olt (some (latestClose df)) (cellAt df ColName.SMA_200 (df.bars.length - 1)) &&
  olt (cellAt df ColName.MACD (df.bars.length - 1))
    (cellAt df ColName.MACD_S (df.bars.length - 1)) &&
  ogt (cellAt df ColName.RSI_14 (df.bars.length - 1)) (some 50)

/-- Reason string of the BUY branch. -/
def buyReason : String :=
  "STRONG BUY: Confirmed Uptrend (Price > SMA_200) + MACD Bullish Cross + Healthy RSI (< 70)."

/-- Reason string of the SELL branch. -/
def sellReason : String :=
  "SELL: Confirmed Downtrend (Price < SMA_200) + MACD Bearish Signal."

/-- Reason string of the default HOLD branch. -/
def holdReason : String :=
  "HOLD: Awaiting clearer trend or momentum signal."

/-- Result of generate_signal: the source returns a 2-tuple on the early
paths, a 3-tuple on the decision paths, and raises IndexError when the
frame has a single row, because iloc with index -2 is out of bounds. -/
inductive GenResult
  | pair (s : Signal) (price : Option ℚ)
  | triple (s : Signal) (price : ℚ) (reason : String)
  | indexError
deriving DecidableEq, Repr

/-- TradingBot.generate_signal, following the control flow of the source:
None or empty data gives ('HOLD', None); a single row raises IndexError
at `iloc[-2]`; a missing required column gives ('HOLD', None); otherwise
the BUY guard, then the SELL guard, then HOLD, each as a 3-tuple. -/
def generate_signal (data : Option DataFrame) : GenResult :=
  match data with
  | none => GenResult.pair Signal.HOLD none
  | some df =>
    if df.bars.length = 0 then GenResult.pair Signal.HOLD none
    else if df.bars.length = 1 then GenResult.indexError
    else if requiredColsPresent df then
      if buyCond df then
        GenResult.triple Signal.BUY (latestClose df) buyReason
      else if sellCond df then
        GenResult.triple Signal.SELL (latestClose df) sellReason
      else
        GenResult.triple Signal.HOLD (latestClose df) holdReason
    else GenResult.pair Signal.HOLD none

/-- The signal component of a generate_signal result. -/
def signalOf : GenResult → Option Signal
  | GenResult.pair s _ => some s
  | GenResult.triple s _ _ => some s
  | GenResult.indexError => none

/-- The reason component of a generate_signal result, when one exists. -/
def reasonOf : GenResult → Option String
  | GenResult.triple _ _ r => some r
  | _ => none

/-- Outcome of one run of the strategy. -/
inductive RunOutcome
  | fetchFailure
  | crash (msg : String)
  | report (s : Signal) (price : ℚ) (reason : String)
deriving DecidableEq, Repr

/-- Message of the uncaught IndexError raised by iloc on a single row. -/
def indexErrorMsg : String :=
  "IndexError: single positional indexer is out-of-bounds"

/-- Message of the uncaught ValueError raised when a 2-tuple is unpacked
into three variables. -/
def unpackErrorMsg : String :=
  "ValueError: not enough values to unpack"

/-- The `signal, price, reason = bot.generate_signal()` unpacking followed
by the report printing of the source. -/
def runReport : GenResult → RunOutcome
  | GenResult.pair _ _ => RunOutcome.crash unpackErrorMsg
  | GenResult.indexError => RunOutcome.crash indexErrorMsg
  | GenResult.triple s p r => RunOutcome.report s p r

/-- run_trading_strategy: fetch, exit early when the data is None or
empty, otherwise enrich, decide, unpack and report. -/
def run_trading_strategy (fetched : Option DataFrame) : RunOutcome :=
  match fetched with
  | none => RunOutcome.fetchFailure
  | some df =>
    if df.bars.isEmpty then RunOutcome.fetchFailure
    else runReport (generate_signal (calculate_indicators (some df)))

/-- A flat bar at the given close used to build concrete frames. -/
def flatBar (t : Int) (c : ℚ) : Bar :=
  { ts := t, Open := c, High := c, Low := c, Close := c }

/-- Concrete frame on which the BUY guard holds. -/
def wdfBuy : DataFrame :=
  { bars := [flatBar 0 105, flatBar 1 110],
    extra := [
      (ColName.RSI_14, [some 50, some 60]),
      (ColName.MACD, [some 1, some 2]),
      (ColName.MACD_S, [some 1, some 1]),
      (ColName.SMA_200, [some 100, some 100])] }

/-- Concrete frame on which the SELL guard holds and the BUY guard does
not. -/
def wdfSell : DataFrame :=
  { bars := [flatBar 0 95, flatBar 1 90],
    extra := [
      (ColName.RSI_14, [some 65, some 60]),
      (ColName.MACD, [some 0, some (-1)]),
      (ColName.MACD_S, [some 0, some 0]),
      (ColName.SMA_200, [some 100, some 100])] }

/-- Concrete frame on which the BUY guard holds, used for the priority
claim. -/
def wdfBuy2 : DataFrame :=
  { bars := [flatBar 0 106, flatBar 1 111],
    extra := [
      (ColName.RSI_14, [some 45, some 55]),
      (ColName.MACD, [some 3, some 5]),
      (ColName.MACD_S, [some 4, some 4]),
      (ColName.SMA_200, [some 101, some 101])] }

/-- Concrete frame whose latest RSI_14 sample is NaN while the column is
present: the warm-up situation of claim C4. -/
def cdf4 : DataFrame :=
  { bars := [flatBar 0 100, flatBar 1 100],
    extra := [
      (ColName.RSI_14, [none, none]),
      (ColName.MACD, [some 1, some 1]),
      (ColName.MACD_S, [some 1, some 1]),
      (ColName.SMA_200, [some 90, some 90])] }

/-- Concrete frame whose latest SMA_200 sample is NaN while the MACD
comparison of the BUY guard evaluates true: the counterexample frame of
claim C9. -/
def cdf9 : DataFrame :=
  { bars := [flatBar 0 100, flatBar 1 100],
    extra := [
      (ColName.RSI_14, [some 50, some 60]),
      (ColName.MACD, [some 1, some 2]),
      (ColName.MACD_S, [some 1, some 1]),
      (ColName.SMA_200, [none, none])] }

/-- Concrete raw frame with a single bar. -/
def oneBarDf : DataFrame :=
  { bars := [flatBar 0 100], extra := [] }

/-- Concrete raw frame with two bars and no indicator columns. -/
def twoBarDf : DataFrame :=
  { bars := [flatBar 0 100, flatBar 1 101], extra := [] }

/-- Concrete raw frame of 15 flat bars, enough for one defined RSI sample
with zero average loss. -/
def flatDf : DataFrame :=
  { bars := [flatBar 0 100, flatBar 1 100, flatBar 2 100, flatBar 3 100,
      flatBar 4 100, flatBar 5 100, flatBar 6 100, flatBar 7 100,
      flatBar 8 100, flatBar 9 100, flatBar 10 100, flatBar 11 100,
      flatBar 12 100, flatBar 13 100, flatBar 14 100],
    extra := [] }

@[simp]
theorem ogt_none_left (b : Option ℚ) : ogt none b = false := by
  cases b <;> rfl

@[simp]
theorem ogt_none_right (a : Option ℚ) : ogt a none = false := by
  cases a <;> rfl

@[simp]
theorem ogt_some_some (x y : ℚ) : ogt (some x) (some y) = decide (y < x) := rfl

@[simp]
theorem olt_none_left (b : Option ℚ) : olt none b = false := by
  cases b <;> rfl

@[simp]
theorem olt_none_right (a : Option ℚ) : olt a none = false := by
  cases a <;> rfl

@[simp]
theorem olt_some_some (x y : ℚ) : olt (some x) (some y) = decide (x < y) := rfl

@[simp]
theorem ole_none_left (b : Option ℚ) : ole none b = false := by
  cases b <;> rfl

@[simp]
theorem ole_none_right (a : Option ℚ) : ole a none = false := by
  cases a <;> rfl

@[simp]
theorem ole_some_some (x y : ℚ) : ole (some x) (some y) = decide (x ≤ y) := rfl

theorem generate_signal_of_ready (df : DataFrame) (h2 : 2 ≤ df.bars.length)
    (hc : requiredColsPresent df = true) :
    generate_signal (some df) =
      if buyCond df then GenResult.triple Signal.BUY (latestClose df) buyReason
      else if sellCond df then GenResult.triple Signal.SELL (latestClose df) sellReason
      else GenResult.triple Signal.HOLD (latestClose df) holdReason := by
  have h0 : ¬ df.bars.length = 0 := by omega
  have h1 : ¬ df.bars.length = 1 := by omega
  simp [generate_signal, h0, h1, hc]

theorem enrich_bars (df : DataFrame) : (enrich df).bars = df.bars := rfl

theorem enrich_extra (df : DataFrame) (hx : df.extra = []) :
    (enrich df).extra =
      [(ColName.RSI_14, rsiList (closesOf df)),
       (ColName.MACD, macdList (closesOf df)),
       (ColName.MACD_H, macdhList (closesOf df)),
       (ColName.MACD_S, macdsList (closesOf df)),
       (ColName.SMA_50, smaList 50 (closesOf df)),
       (ColName.SMA_200, smaList 200 (closesOf df))] := by
  simp [enrich, appendCol, renameCol, hx]

theorem getCol_enrich_RSI (df : DataFrame) (hx : df.extra = []) :
    getCol (enrich df) ColName.RSI_14 = some (rsiList (closesOf df)) := by
  rw [getCol, enrich_extra df hx]
  rfl

theorem getCol_enrich_MACD (df : DataFrame) (hx : df.extra = []) :
    getCol (enrich df) ColName.MACD = some (macdList (closesOf df)) := by
  rw [getCol, enrich_extra df hx]
  rfl

theorem getCol_enrich_MACDS (df : DataFrame) (hx : df.extra = []) :
    getCol (enrich df) ColName.MACD_S = some (macdsList (closesOf df)) := by
  rw [getCol, enrich_extra df hx]
  rfl

theorem getCol_enrich_SMA200 (df : DataFrame) (hx : df.extra = []) :
    getCol (enrich df) ColName.SMA_200 = some (smaList 200 (closesOf df)) := by
  rw [getCol, enrich_extra df hx]
  rfl

theorem requiredColsPresent_enrich (df : DataFrame) (hx : df.extra = []) :
    requiredColsPresent (enrich df) = true := by
  rw [requiredColsPresent, getCol_enrich_RSI df hx, getCol_enrich_MACD df hx,
    getCol_enrich_MACDS df hx, getCol_enrich_SMA200 df hx]
  rfl

theorem hold_of_latest_undefined (df : DataFrame) (h2 : 2 ≤ df.bars.length)
    (hc : requiredColsPresent df = true)
    (h : cellAt df ColName.RSI_14 (df.bars.length - 1) = none ∨
         cellAt df ColName.MACD (df.bars.length - 1) = none ∨
         cellAt df ColName.MACD_S (df.bars.length - 1) = none ∨
         cellAt df ColName.SMA_200 (df.bars.length - 1) = none) :
    buyCond df = false ∧ sellCond df = false ∧
      generate_signal (some df) =
        GenResult.triple Signal.HOLD (latestClose df) holdReason := by
  have hbs : buyCond df = false ∧ sellCond df = false := by
    rcases h with h | h | h | h
    · exact ⟨by simp [buyCond, h], by simp [sellCond, h]⟩
    · exact ⟨by simp [buyCond, h], by simp [sellCond, h]⟩
    · exact ⟨by simp [buyCond, h], by simp [sellCond, h]⟩
    · exact ⟨by simp [buyCond, h], by simp [sellCond, h]⟩
  refine ⟨hbs.1, hbs.2, ?_⟩
  rw [generate_signal_of_ready df h2 hc, if_neg (by simp [hbs.1]),
    if_neg (by simp [hbs.2])]

theorem closesOf_length (df : DataFrame) : (closesOf df).length = df.bars.length := by
  simp [closesOf]

theorem deltas_length (xs : List ℚ) : (deltas xs).length = xs.length - 1 := by
  simp [deltas]

theorem gains_length (xs : List ℚ) : (gains xs).length = xs.length - 1 := by
  simp [gains, deltas_length]

theorem losses_length (xs : List ℚ) : (losses xs).length = xs.length - 1 := by
  simp [losses, deltas_length]

theorem wilder_length (p : Nat) (xs : List ℚ) :
    (wilder p xs).length = xs.length + 1 - p := by
  by_cases h : xs.length < p
  · rw [wilder, if_pos h]
    simp
    omega
  · rw [wilder, if_neg h]
    rw [List.length_scanl]
    simp
    omega

theorem emaCore_length (n : Nat) (xs : List ℚ) :
    (emaCore n xs).length = xs.length + 1 - n := by
  by_cases h : xs.length < n
  · rw [emaCore, if_pos h]
    simp
    omega
  · rw [emaCore, if_neg h]
    rw [List.length_scanl]
    simp
    omega

theorem macdCore_length (xs : List ℚ) : (macdCore xs).length = xs.length - 25 := by
  simp [macdCore, emaCore_length]
  omega

theorem macdsCore_length (xs : List ℚ) : (macdsCore xs).length = xs.length - 33 := by
  rw [macdsCore, emaCore_length, macdCore_length]
  omega

theorem macdhCore_length (xs : List ℚ) : (macdhCore xs).length = xs.length - 33 := by
  simp [macdhCore, macdCore_length, macdsCore_length]
  omega

theorem smaCore_length (n : Nat) (xs : List ℚ) :
    (smaCore n xs).length = xs.length + 1 - n := by
  simp [smaCore]

theorem rsiCore_length (xs : List ℚ) : (rsiCore xs).length = xs.length - 14 := by
  simp [rsiCore, wilder_length, losses_length]
  omega

theorem rsiList_length (xs : List ℚ) : (rsiList xs).length = xs.length := by
  simp [rsiList, rsiCore_length]
  omega

theorem macdList_length (xs : List ℚ) : (macdList xs).length = xs.length := by
  simp [macdList, macdCore_length]
  omega

theorem macdsList_length (xs : List ℚ) : (macdsList xs).length = xs.length := by
  simp [macdsList, macdsCore_length]
  omega

theorem macdhList_length (xs : List ℚ) : (macdhList xs).length = xs.length := by
  simp [macdhList, macdhCore_length]
  omega

theorem smaList_length (n : Nat) (xs : List ℚ) (hn : 1 ≤ n) :
    (smaList n xs).length = xs.length := by
  simp [smaList, smaCore_length]
  omega

theorem smaList_short (n : Nat) (xs : List ℚ) (h : xs.length < n) :
    smaList n xs = List.replicate xs.length none := by
  have h0 : xs.length + 1 - n = 0 := by omega
  have h1 : min xs.length (n - 1) = xs.length := by omega
  simp [smaList, smaCore, h0, h1]

theorem getD_nonneg (l : List ℚ) (k : Nat) (h : ∀ x ∈ l, 0 ≤ x) :
    0 ≤ l.getD k 0 := by
  induction l generalizing k with
  | nil => simp [List.getD]
  | cons a t ih =>
    cases k with
    | zero => simpa using h a (by simp)
    | succ k =>
      rw [List.getD_cons_succ]
      exact ih k (fun x hx => h x (by simp [hx]))

theorem scanl_nonneg (f : ℚ → ℚ → ℚ)
    (hf : ∀ a x, 0 ≤ a → 0 ≤ x → 0 ≤ f a x)
    (l : List ℚ) (a : ℚ) (ha : 0 ≤ a) (hl : ∀ x ∈ l, 0 ≤ x) :
    ∀ y ∈ List.scanl f a l, 0 ≤ y := by
  induction l generalizing a with
  | nil =>
    intro y hy
    rw [List.scanl_nil, List.mem_singleton] at hy
    exact hy ▸ ha
  | cons x t ih =>
    intro y hy
    rw [List.scanl_cons] at hy
    rcases List.mem_cons.mp hy with h | h
    · exact h ▸ ha
    · exact ih (f a x) (hf a x ha (hl x (by simp)))
        (fun z hz => hl z (by simp [hz])) y h

theorem gains_nonneg (xs : List ℚ) : ∀ x ∈ gains xs, 0 ≤ x := by
  intro x hx
  rcases List.mem_map.mp hx with ⟨d, _, rfl⟩
  exact le_max_right d 0

theorem losses_nonneg (xs : List ℚ) : ∀ x ∈ losses xs, 0 ≤ x := by
  intro x hx
  rcases List.mem_map.mp hx with ⟨d, _, rfl⟩
  exact le_max_right (-d) 0

theorem wilder_nonneg (p : Nat) (xs : List ℚ) (hp : 1 ≤ p)
    (hxs : ∀ x ∈ xs, 0 ≤ x) : ∀ y ∈ wilder p xs, 0 ≤ y := by
  rw [wilder]
  by_cases h : xs.length < p
  · rw [if_pos h]
    simp
  · rw [if_neg h]
    apply scanl_nonneg
    · intro a x ha hx
      apply div_nonneg
      · have hp1 : (0:ℚ) ≤ (p:ℚ) - 1 := by
          have h1 : (1:ℚ) ≤ (p:ℚ) := by exact_mod_cast hp
          linarith
        have := mul_nonneg ha hp1
        linarith
      · exact Nat.cast_nonneg p
    · apply div_nonneg
      · exact List.sum_nonneg (fun x hx => hxs x (List.mem_of_mem_take hx))
      · exact Nat.cast_nonneg p
    · intro x hx
      exact hxs x (List.mem_of_mem_drop hx)

theorem rsiVal_bounds (g l : ℚ) (hg : 0 ≤ g) (hl : 0 ≤ l) :
    0 ≤ rsiVal g l ∧ rsiVal g l ≤ 100 := by
  rw [rsiVal]
  by_cases h : l = 0
  · rw [if_pos h]
    norm_num
  · rw [if_neg h]
    have hq : 0 ≤ g / l := div_nonneg hg hl
    have h1 : (1:ℚ) ≤ 1 + g / l := by linarith
    have h2 : 100 / (1 + g / l) ≤ 100 := div_le_self (by norm_num) h1
    have h3 : 0 < 100 / (1 + g / l) := div_pos (by norm_num) (by linarith)
    constructor <;> linarith

theorem rsiCore_mem_bounds (xs : List ℚ) (v : ℚ) (hv : v ∈ rsiCore xs) :
    0 ≤ v ∧ v ≤ 100 := by
  rw [rsiCore] at hv
  rcases List.mem_map.mp hv with ⟨k, _, rfl⟩
  exact rsiVal_bounds _ _
    (getD_nonneg _ _ (wilder_nonneg 14 _ (by norm_num) (gains_nonneg xs)))
    (getD_nonneg _ _ (wilder_nonneg 14 _ (by norm_num) (losses_nonneg xs)))

/-- C1: for every enriched series with at least two bars whose latest and
previous rows have defined RSI_14, MACD, MACD_Signal and SMA_200 samples,
generate_signal returns BUY exactly when the latest close is above the
latest SMA_200, the MACD crosses above its signal line at this bar (above
now, not above before), the RSI is rising, and the latest RSI is below
70. -/
theorem c1_buy_iff (df : DataFrame) (h2 : 2 ≤ df.bars.length)
    (hc : requiredColsPresent df = true)
    (lR pR lM pM lS pS lT pT : ℚ)
    (hlR : cellAt df ColName.RSI_14 (df.bars.length - 1) = some lR)
    (hpR : cellAt df ColName.RSI_14 (df.bars.length - 2) = some pR)
    (hlM : cellAt df ColName.MACD (df.bars.length - 1) = some lM)
    (hpM : cellAt df ColName.MACD (df.bars.length - 2) = some pM)
    (hlS : cellAt df ColName.MACD_S (df.bars.length - 1) = some lS)
    (hpS : cellAt df ColName.MACD_S (df.bars.length - 2) = some pS)
    (hlT : cellAt df ColName.SMA_200 (df.bars.length - 1) = some lT)
    (hpT : cellAt df ColName.SMA_200 (df.bars.length - 2) = some pT) :
    signalOf (generate_signal (some df)) = some Signal.BUY ↔
      (lT < latestClose df ∧ (lS < lM ∧ pM ≤ pS) ∧ pR < lR ∧ lR < 70) := by
  have hb : buyCond df = true ↔
      (lT < latestClose df ∧ (lS < lM ∧ pM ≤ pS) ∧ pR < lR ∧ lR < 70) := by
    rw [buyCond, hlR, hpR, hlM, hpM, hlS, hpS, hlT]
    simp only [ogt_some_some, olt_some_some, ole_some_some,
      Bool.and_eq_true, decide_eq_true_eq]
    tauto
  rw [generate_signal_of_ready df h2 hc]
  by_cases hB : buyCond df = true
  · rw [if_pos hB]
    simp only [signalOf, Option.some_inj, true_iff, iff_true]
    exact hb.mp hB
  · rw [if_neg hB]
    have hbf : ¬ (lT < latestClose df ∧ (lS < lM ∧ pM ≤ pS) ∧ pR < lR ∧ lR < 70) :=
      fun hpr => hB (hb.mpr hpr)
    by_cases hS : sellCond df = true
    · rw [if_pos hS]
      simp [signalOf, hbf]
    · rw [if_neg hS]
      simp [signalOf, hbf]

/-- C1 witness: a concrete frame satisfying all four BUY conditions, on
which generate_signal returns BUY. -/
theorem c1_buy_iff_witness :
    signalOf (generate_signal (some wdfBuy)) = some Signal.BUY :=
  (c1_buy_iff wdfBuy (by decide) (by decide) 60 50 2 1 1 1 100 100
    (by decide) (by decide) (by decide) (by decide) (by decide) (by decide)
    (by decide) (by decide)).mpr (by decide)

/-- C2: for every enriched series with at least two bars whose latest and
previous rows have defined indicator samples, generate_signal returns
SELL exactly when the BUY conditions do not all hold and the latest close
is below the latest SMA_200, the latest MACD is below its signal line and
the latest RSI is above 50; in every other such case it returns HOLD. -/
theorem c2_sell_hold_iff (df : DataFrame) (h2 : 2 ≤ df.bars.length)
    (hc : requiredColsPresent df = true)
    (lR pR lM pM lS pS lT pT : ℚ)
    (hlR : cellAt df ColName.RSI_14 (df.bars.length - 1) = some lR)
    (hpR : cellAt df ColName.RSI_14 (df.bars.length - 2) = some pR)
    (hlM : cellAt df ColName.MACD (df.bars.length - 1) = some lM)
    (hpM : cellAt df ColName.MACD (df.bars.length - 2) = some pM)
    (hlS : cellAt df ColName.MACD_S (df.bars.length - 1) = some lS)
    (hpS : cellAt df ColName.MACD_S (df.bars.length - 2) = some pS)
    (hlT : cellAt df ColName.SMA_200 (df.bars.length - 1) = some lT)
    (hpT : cellAt df ColName.SMA_200 (df.bars.length - 2) = some pT) :
    (signalOf (generate_signal (some df)) = some Signal.SELL ↔
      (¬ (lT < latestClose df ∧ (lS < lM ∧ pM ≤ pS) ∧ pR < lR ∧ lR < 70) ∧
        (latestClose df < lT ∧ lM < lS ∧ 50 < lR))) ∧
    (signalOf (generate_signal (some df)) = some Signal.HOLD ↔
      (¬ (lT < latestClose df ∧ (lS < lM ∧ pM ≤ pS) ∧ pR < lR ∧ lR < 70) ∧
        ¬ (latestClose df < lT ∧ lM < lS ∧ 50 < lR))) := by
  have hb : buyCond df = true ↔
      (lT < latestClose df ∧ (lS < lM ∧ pM ≤ pS) ∧ pR < lR ∧ lR < 70) := by
    rw [buyCond, hlR, hpR, hlM, hpM, hlS, hpS, hlT]
    simp only [ogt_some_some, olt_some_some, ole_some_some,
      Bool.and_eq_true, decide_eq_true_eq]
    tauto
  have hs : sellCond df = true ↔
      (latestClose df < lT ∧ lM < lS ∧ 50 < lR) := by
    rw [sellCond, hlR, hlM, hlS, hlT]
    simp only [ogt_some_some, olt_some_some, ole_some_some,
      Bool.and_eq_true, decide_eq_true_eq]
    tauto
  rw [generate_signal_of_ready df h2 hc]
  by_cases hB : buyCond df = true
  · rw [if_pos hB]
    have hbp := hb.mp hB
    constructor <;> simp [signalOf, hbp]
  · rw [if_neg hB]
    have hbf : ¬ (lT < latestClose df ∧ (lS < lM ∧ pM ≤ pS) ∧ pR < lR ∧ lR < 70) :=
      fun hpr => hB (hb.mpr hpr)
    by_cases hS : sellCond df = true
    · rw [if_pos hS]
      have hsp := hs.mp hS
      constructor <;> simp [signalOf, hbf, hsp]
    · rw [if_neg hS]
      have hsf : ¬ (latestClose df < lT ∧ lM < lS ∧ 50 < lR) :=
        fun hpr => hS (hs.mpr hpr)
      constructor <;> simp [signalOf, hbf, hsf]

/-- C2 witness: a concrete frame in downtrend with bearish MACD and RSI
above 50, failing the BUY conditions, on which generate_signal returns
SELL. -/
theorem c2_sell_hold_iff_witness :
    signalOf (generate_signal (some wdfSell)) = some Signal.SELL :=
  (c2_sell_hold_iff wdfSell (by decide) (by decide) 60 65 (-1) 0 0 0 100 100
    (by decide) (by decide) (by decide) (by decide) (by decide) (by decide)
    (by decide) (by decide)).1.mpr (by decide)

/-- C3: on every input with at least two bars and the required columns on
which the BUY guard of the source holds, generate_signal returns BUY,
regardless of whether the SELL guard also holds: the BUY branch is tested
first and wins. -/
theorem c3_buy_priority (df : DataFrame) (h2 : 2 ≤ df.bars.length)
    (hc : requiredColsPresent df = true) (hbuy : buyCond df = true) :
    signalOf (generate_signal (some df)) = some Signal.BUY := by
  rw [generate_signal_of_ready df h2 hc, if_pos hbuy]
  rfl

/-- C3 witness: a concrete frame on which the BUY guard holds and the
result is BUY. -/
theorem c3_buy_priority_witness :
    signalOf (generate_signal (some wdfBuy2)) = some Signal.BUY :=
  c3_buy_priority wdfBuy2 (by decide) (by decide) (by decide)

/-- C4 counterexample: a concrete frame with two bars whose indicator
columns are present but whose latest RSI_14 sample is undefined; the
result is HOLD, but its reason is the generic hold reason, not the
"insufficient indicator history" reason the claim states. -/
theorem c4_reason_counterexample :
    cellAt cdf4 ColName.RSI_14 (cdf4.bars.length - 1) = none ∧
    signalOf (generate_signal (some cdf4)) = some Signal.HOLD ∧
    reasonOf (generate_signal (some cdf4)) = some holdReason ∧
    reasonOf (generate_signal (some cdf4)) ≠ some "insufficient indicator history" :=
  ⟨by decide, by decide, by decide, by decide⟩

/-- C4 amended: for every series with at least two bars whose required
indicator columns are present but whose latest row is missing any of
RSI_14, MACD, MACD_S or SMA_200 (undefined because of insufficient
warm-up), generate_signal returns HOLD as a normal 3-tuple, not a raised
error, but with the generic hold reason rather than a dedicated
"insufficient indicator history" reason. -/
theorem c4_warmup_hold (df : DataFrame) (h2 : 2 ≤ df.bars.length)
    (hc : requiredColsPresent df = true)
    (h : cellAt df ColName.RSI_14 (df.bars.length - 1) = none ∨
         cellAt df ColName.MACD (df.bars.length - 1) = none ∨
         cellAt df ColName.MACD_S (df.bars.length - 1) = none ∨
         cellAt df ColName.SMA_200 (df.bars.length - 1) = none) :
    generate_signal (some df) =
      GenResult.triple Signal.HOLD (latestClose df) holdReason ∧
    holdReason ≠ "insufficient indicator history" :=
  ⟨(hold_of_latest_undefined df h2 hc h).2.2, by decide⟩

/-- C4 amended witness: the amended theorem applied to the concrete
warm-up frame. -/
theorem c4_warmup_hold_witness :
    generate_signal (some cdf4) =
      GenResult.triple Signal.HOLD (latestClose cdf4) holdReason :=
  (c4_warmup_hold cdf4 (by decide) (by decide) (Or.inl (by decide))).1

/-- C9 counterexample: a concrete frame whose latest SMA_200 sample is
undefined while the MACD comparison of the BUY guard still evaluates
true, refuting the clause that every comparison in both guards evaluates
false; the decision is nevertheless HOLD. -/
theorem c9_comparison_counterexample :
    cellAt cdf9 ColName.SMA_200 (cdf9.bars.length - 1) = none ∧
    ogt (cellAt cdf9 ColName.MACD (cdf9.bars.length - 1))
      (cellAt cdf9 ColName.MACD_S (cdf9.bars.length - 1)) = true ∧
    signalOf (generate_signal (some cdf9)) = some Signal.HOLD :=
  ⟨by decide, by decide, by decide⟩

/-- C9 amended: if any of the latest SMA_200, MACD, MACD_S or RSI_14
samples is present but undefined, every comparison involving that
undefined value evaluates false, so both guards fail and generate_signal
returns HOLD, never BUY or SELL. -/
theorem c9_nan_safety (df : DataFrame) (h2 : 2 ≤ df.bars.length)
    (hc : requiredColsPresent df = true)
    (h : cellAt df ColName.RSI_14 (df.bars.length - 1) = none ∨
         cellAt df ColName.MACD (df.bars.length - 1) = none ∨
         cellAt df ColName.MACD_S (df.bars.length - 1) = none ∨
         cellAt df ColName.SMA_200 (df.bars.length - 1) = none) :
    buyCond df = false ∧ sellCond df = false ∧
    signalOf (generate_signal (some df)) = some Signal.HOLD := by
  obtain ⟨hb, hs, hg⟩ := hold_of_latest_undefined df h2 hc h
  rw [hg]
  exact ⟨hb, hs, rfl⟩

/-- C9 amended witness: the amended theorem applied to the concrete frame
with an undefined latest SMA_200. -/
theorem c9_nan_safety_witness :
    buyCond cdf9 = false ∧ sellCond cdf9 = false ∧
    signalOf (generate_signal (some cdf9)) = some Signal.HOLD :=
  c9_nan_safety cdf9 (by decide) (by decide)
    (Or.inr (Or.inr (Or.inr (by decide))))

theorem getD_replicate_none (n i : Nat) :
    (List.replicate n (none : Option ℚ)).getD i none = none := by
  rw [List.getD_eq_getElem?_getD]
  rcases lt_or_ge i n with h | h
  · simp [List.getElem?_replicate, h]
  · simp [List.getElem?_replicate, Nat.not_lt.mpr h]

/-- C5: for every run whose fetched series is empty, missing, or has
fewer than two bars, run_trading_strategy terminates as a failure (an
early exit or an uncaught IndexError) and never emits a report. -/
theorem c5_no_decision (fetched : Option DataFrame)
    (h : fetched = none ∨ ∃ df, fetched = some df ∧ df.bars.length < 2) :
    (run_trading_strategy fetched = RunOutcome.fetchFailure ∨
      run_trading_strategy fetched = RunOutcome.crash indexErrorMsg) ∧
    ∀ s p r, run_trading_strategy fetched ≠ RunOutcome.report s p r := by
  have hmain : run_trading_strategy fetched = RunOutcome.fetchFailure ∨
      run_trading_strategy fetched = RunOutcome.crash indexErrorMsg := by
    rcases h with rfl | ⟨df, rfl, hlen⟩
    · exact Or.inl rfl
    · by_cases he : df.bars.isEmpty
      · exact Or.inl (by simp [run_trading_strategy, he])
      · right
        have h1 : df.bars.length = 1 := by
          have h0 : ¬ df.bars.length = 0 := by
            simpa [List.isEmpty_iff_length_eq_zero] using he
          omega
        have h1' : (enrich df).bars.length = 1 := by
          rw [enrich_bars]
          exact h1
        simp [run_trading_strategy, he, calculate_indicators,
          generate_signal, runReport, h1']
  refine ⟨hmain, fun s p r hcon => ?_⟩
  rcases hmain with h' | h' <;> rw [h'] at hcon <;> cases hcon

/-- C5 witness: the single-bar run never reports a decision. -/
theorem c5_no_decision_witness :
    run_trading_strategy (some oneBarDf) ≠
      RunOutcome.report Signal.HOLD 100 holdReason :=
  (c5_no_decision (some oneBarDf)
    (Or.inr ⟨oneBarDf, rfl, by decide⟩)).2 Signal.HOLD 100 holdReason

/-- C6: calling calculate_indicators on a well-formed non-empty series
with fewer than 200 bars is not an error: it yields an enriched frame in
which the indicator columns are present, the SMA_200 column in particular
is present but all-undefined, and the failure surfaces only downstream,
where generate_signal reads the undefined values and holds. -/
theorem c6_short_series (df : DataFrame) (hne : df.bars ≠ [])
    (hlen : df.bars.length < 200) (hx : df.extra = []) :
    calculate_indicators (some df) = some (enrich df) ∧
    requiredColsPresent (enrich df) = true ∧
    getCol (enrich df) ColName.SMA_200 =
      some (List.replicate df.bars.length none) ∧
    (2 ≤ df.bars.length →
      signalOf (generate_signal (calculate_indicators (some df))) =
        some Signal.HOLD) := by
  have he : df.bars.isEmpty = false := by
    simpa [List.isEmpty_iff] using hne
  have hca : calculate_indicators (some df) = some (enrich df) := by
    simp [calculate_indicators, he]
  have hsma : getCol (enrich df) ColName.SMA_200 =
      some (List.replicate df.bars.length none) := by
    rw [getCol_enrich_SMA200 df hx,
      smaList_short 200 _ (by rw [closesOf_length]; exact hlen),
      closesOf_length]
  refine ⟨hca, requiredColsPresent_enrich df hx, hsma, fun h2 => ?_⟩
  have h2' : 2 ≤ (enrich df).bars.length := by
    rw [enrich_bars]
    exact h2
  have hcell : cellAt (enrich df) ColName.SMA_200
      ((enrich df).bars.length - 1) = none := by
    rw [cellAt, hsma]
    exact getD_replicate_none df.bars.length ((enrich df).bars.length - 1)
  rw [hca,
    (hold_of_latest_undefined (enrich df) h2'
      (requiredColsPresent_enrich df hx)
      (Or.inr (Or.inr (Or.inr hcell)))).2.2]
  rfl

/-- C6 witness: the two-bar raw frame is enriched without error, its
SMA_200 column is all-undefined, and the consumer holds. -/
theorem c6_short_series_witness :
    getCol (enrich twoBarDf) ColName.SMA_200 =
      some (List.replicate twoBarDf.bars.length none) ∧
    signalOf (generate_signal (calculate_indicators (some twoBarDf))) =
      some Signal.HOLD := by
  have h := c6_short_series twoBarDf (by decide) (by decide) rfl
  exact ⟨h.2.2.1, h.2.2.2 (by decide)⟩

/-- C7: every defined RSI_14 sample produced by the indicator engine lies
in the closed interval from 0 to 100, and at every position whose
trailing Wilder-smoothed 14-period average loss is zero the RSI sample is
exactly 100. -/
theorem c7_rsi_range (df : DataFrame) (hx : df.extra = []) :
    (∀ v : ℚ, some v ∈ (getCol (enrich df) ColName.RSI_14).getD [] →
      0 ≤ v ∧ v ≤ 100) ∧
    (∀ k : Nat, k < (wilder 14 (losses (closesOf df))).length →
      (wilder 14 (losses (closesOf df))).getD k 0 = 0 →
      ((getCol (enrich df) ColName.RSI_14).getD []).getD (14 + k) none =
        some 100) := by
  rw [getCol_enrich_RSI df hx]
  constructor
  · intro v hv
    rw [Option.getD_some, rsiList] at hv
    rcases List.mem_append.mp hv with h | h
    · exact absurd (List.eq_of_mem_replicate h) (by simp)
    · rcases List.mem_map.mp h with ⟨w, hw, hww⟩
      exact (Option.some_inj.mp hww) ▸ rsiCore_mem_bounds _ w hw
  · intro k hk hz
    have hL : (wilder 14 (losses (closesOf df))).length =
        (closesOf df).length - 14 := by
      rw [wilder_length, losses_length]
      omega
    rw [hL] at hk
    have hmin : min (closesOf df).length 14 = 14 := by omega
    rw [Option.getD_some, rsiList, hmin, List.getD_eq_getElem?_getD,
      List.getElem?_append_right (by simp)]
    simp only [List.length_replicate, Nat.add_sub_cancel_left,
      List.getElem?_map]
    rw [rsiCore]
    rw [List.getElem?_map, List.getElem?_range (by rw [hL]; exact hk)]
    simp only [Option.map_some', Option.getD_some]
    rw [hz, rsiVal]
    simp

/-- C7 witness: on the 15 flat bars, the single defined RSI sample sits
at position 14 of the RSI_14 column and equals 100, because the trailing
average loss is zero there. -/
theorem c7_rsi_range_witness :
    ((getCol (enrich flatDf) ColName.RSI_14).getD []).getD 14 none =
      some 100 := by
  have hlen : (wilder 14 (losses (closesOf flatDf))).length = 1 := by
    rw [wilder_length, losses_length, closesOf_length]
    norm_num [flatDf]
  have hz : (wilder 14 (losses (closesOf flatDf))).getD 0 0 = 0 := by
    norm_num [wilder, losses, deltas, closesOf, flatDf, flatBar,
      List.scanl_nil, List.scanl_cons]
  have h := (c7_rsi_range flatDf rfl).2 0 (by rw [hlen]; norm_num) hz
  simpa using h

/-- C8: the indicator engine leaves the raw bars of every input frame
unchanged, and on a raw fetched frame it only appends the six derived
indicator columns, each aligned one-to-one with the bars. -/
theorem c8_frame (df : DataFrame) :
    (enrich df).bars = df.bars ∧
    (df.extra = [] →
      (enrich df).extra.map Prod.fst =
        [ColName.RSI_14, ColName.MACD, ColName.MACD_H, ColName.MACD_S,
         ColName.SMA_50, ColName.SMA_200] ∧
      ∀ p ∈ (enrich df).extra, p.2.length = df.bars.length) := by
  refine ⟨enrich_bars df, fun hx => ?_⟩
  rw [enrich_extra df hx]
  refine ⟨rfl, fun p hp => ?_⟩
  fin_cases hp
  · rw [rsiList_length, closesOf_length]
  · rw [macdList_length, closesOf_length]
  · rw [macdhList_length, closesOf_length]
  · rw [macdsList_length, closesOf_length]
  · rw [smaList_length 50 _ (by norm_num), closesOf_length]
  · rw [smaList_length 200 _ (by norm_num), closesOf_length]

/-- C8 witness: the frame property evaluated on the concrete two-bar raw
frame. -/
theorem c8_frame_witness :
    (enrich twoBarDf).bars = twoBarDf.bars ∧
    (enrich twoBarDf).extra.map Prod.fst =
      [ColName.RSI_14, ColName.MACD, ColName.MACD_H, ColName.MACD_S,
       ColName.SMA_50, ColName.SMA_200] :=
  ⟨(c8_frame twoBarDf).1, ((c8_frame twoBarDf).2 rfl).1⟩

/-- C10: generate_signal returns a 2-tuple exactly on the inputs whose
frame is empty or, with at least two bars, is missing a required
indicator column; on ready inputs it returns a 3-tuple; and the
orchestrator unpacking of any 2-tuple result crashes instead of reporting
a decision. -/
theorem c10_return_shape (df : DataFrame) :
    ((∃ s p, generate_signal (some df) = GenResult.pair s p) ↔
      (df.bars.length = 0 ∨
        (2 ≤ df.bars.length ∧ requiredColsPresent df = false))) ∧
    ((2 ≤ df.bars.length ∧ requiredColsPresent df = true) →
      ∃ s p r, generate_signal (some df) = GenResult.triple s p r) ∧
    (∀ s p, generate_signal (some df) = GenResult.pair s p →
      runReport (generate_signal (some df)) =
        RunOutcome.crash unpackErrorMsg ∧
      ∀ s2 p2 r2, runReport (generate_signal (some df)) ≠
        RunOutcome.report s2 p2 r2) := by
  refine ⟨⟨?_, ?_⟩, ?_, ?_⟩
  · rintro ⟨s, p, hpair⟩
    by_cases h0 : df.bars.length = 0
    · exact Or.inl h0
    · by_cases h1 : df.bars.length = 1
      · simp [generate_signal, h0, h1] at hpair
      · have h2 : 2 ≤ df.bars.length := by omega
        refine Or.inr ⟨h2, ?_⟩
        by_cases hc : requiredColsPresent df = true
        · exfalso
          rw [generate_signal_of_ready df h2 hc] at hpair
          by_cases hB : buyCond df = true
          · rw [if_pos hB] at hpair
            cases hpair
          · rw [if_neg hB] at hpair
            by_cases hS : sellCond df = true
            · rw [if_pos hS] at hpair
              cases hpair
            · rw [if_neg hS] at hpair
              cases hpair
        · simpa using hc
  · rintro (h0 | ⟨h2, hc⟩)
    · exact ⟨Signal.HOLD, none, by simp [generate_signal, h0]⟩
    · refine ⟨Signal.HOLD, none, ?_⟩
      have h0 : ¬ df.bars.length = 0 := by omega
      have h1 : ¬ df.bars.length = 1 := by omega
      simp [generate_signal, h0, h1, hc]
  · rintro ⟨h2, hc⟩
    by_cases hB : buyCond df = true
    · exact ⟨Signal.BUY, latestClose df, buyReason,
        by rw [generate_signal_of_ready df h2 hc, if_pos hB]⟩
    · by_cases hS : sellCond df = true
      · exact ⟨Signal.SELL, latestClose df, sellReason,
          by rw [generate_signal_of_ready df h2 hc, if_neg hB, if_pos hS]⟩
      · exact ⟨Signal.HOLD, latestClose df, holdReason,
          by rw [generate_signal_of_ready df h2 hc, if_neg hB, if_neg hS]⟩
  · intro s p hpair
    rw [hpair]
    exact ⟨rfl, fun s2 p2 r2 hcon => by cases hcon⟩

/-- C10 witness: on the concrete raw two-bar frame without indicator
columns, generate_signal returns a 2-tuple and the orchestrator unpacking
crashes. -/
theorem c10_return_shape_witness :
    runReport (generate_signal (some twoBarDf)) =
      RunOutcome.crash unpackErrorMsg :=
  ((c10_return_shape twoBarDf).2.2 Signal.HOLD none (by decide)).1

end TradingLogic
